import Mathlib

/-!
Verification development for the em_reports CSV ingestion pipeline.

The Python sources are embedded shallowly:
* `functions/functions.py`: `_norm_year`, `_build_date`,
  `extract_dates_from_filename`, `coerce_named_date_columns`,
  `robust_read_csv`, and the persistence tail of `export_xlsx_bytes`.
* `app.py`: `_norm_key`, `SCO_MAP`, and the per-file enrichment step of the
  detail pipeline (insertion of Year/Month/From/To/SCO2 columns).

Library behaviour that the code calls into is modelled explicitly:
Python's `re` search for the two concrete patterns used, `datetime.date`
validation, `str.splitlines`, the `csv` module's per-line field splitting,
and the pandas `read_csv` python-engine behaviour actually exercised
(blank lines skipped, rows with more fields than the header dropped by
`on_bad_lines="skip"`, shorter rows padded with missing values, positional
`usecols` selection).  Heuristic or I/O-dependent library outcomes
(`csv.Sniffer`, `pandas.to_datetime`'s string parser, filesystem writes)
are parameters of the embedding, so every theorem quantifies over them.
-/

set_option synthInstance.maxSize 512
set_option maxRecDepth 8192

namespace EmReports

/-- Python `datetime.date`: a year/month/day triple.  Validity is checked
separately by `isValidDate`, mirroring the `ValueError` raised by the
`date` constructor. -/
structure PyDate where
  year : Nat
  month : Nat
  day : Nat
deriving DecidableEq

/-- Gregorian leap-year rule, as used by `datetime.date`. -/
def isLeapYear (y : Nat) : Bool :=
  y % 4 == 0 && (y % 100 != 0 || y % 400 == 0)

/-- Days in a month of the Gregorian calendar (0 for an invalid month). -/
def daysInMonth (y m : Nat) : Nat :=
  if m = 1 then 31
  else if m = 2 then (if isLeapYear y then 29 else 28)
  else if m = 3 then 31
  else if m = 4 then 30
  else if m = 5 then 31
  else if m = 6 then 30
  else if m = 7 then 31
  else if m = 8 then 31
  else if m = 9 then 30
  else if m = 10 then 31
  else if m = 11 then 30
  else if m = 12 then 31
  else 0

/-- The argument ranges accepted by the `datetime.date` constructor. -/
def isValidDate (y m d : Nat) : Bool :=
  1 ≤ y && y ≤ 9999 && 1 ≤ m && m ≤ 12 && 1 ≤ d && d ≤ daysInMonth y m

/-- Value of a string of decimal digits, as Python `int()` computes it on
the digit-only groups produced by the regular expressions below. -/
def digitsToNat (ds : List Char) : Nat :=
  ds.foldl (fun a c => 10 * a + (c.toNat - 48)) 0

/-- `functions.py` `_norm_year`: normalize a 2-digit year to 2000–2099,
keep a 4-digit year as is.  (A 3-digit group, which the pattern `\d{2,4}`
also admits, falls into the `2000 +` branch, exactly as in the source.) -/
def _norm_year (y : List Char) : Nat :=
  if y.length = 4 then digitsToNat y else 2000 + digitsToNat y

/-- `functions.py` `_build_date`: build a date from the matched groups;
an invalid month/day/year combination yields `none` (the source catches
`ValueError`). -/
def _build_date (dayfirst : Bool) (m d y : List Char) : Option PyDate :=
  let mm := if dayfirst then digitsToNat d else digitsToNat m
  let dd := if dayfirst then digitsToNat m else digitsToNat d
  let yy := _norm_year y
  if isValidDate yy mm dd then some ⟨yy, mm, dd⟩ else none

/-! ### The two regular expressions of `extract_dates_from_filename`

`range_pat  = (\d{1,2})[.\-](\d{1,2})[.\-](\d{2,4})_(\d{1,2})[.\-](\d{1,2})[.\-](\d{2,4})`
`single_pat = (\d{1,2})[.\-](\d{1,2})[.\-](\d{2,4})`

They are embedded directly: `tryD`, `trySep`, `tryY`, `tryUnd` model the
atoms with Python's greedy, backtracking semantics (a quantifier first
tries the longest repetition, falling back on failure of the rest of the
pattern), and `searchRange` / `searchSingle` model `re.search`'s
leftmost-match rule by trying each start position from the left. -/

/-- Match `(\d{1,2})` greedily at the head of `cs`, passing the group and
the rest of the input to the continuation `k`, backtracking from two
digits to one if `k` fails. -/
def tryD {α : Type} (cs : List Char) (k : List Char → List Char → Option α) : Option α :=
  match cs with
  | [] => none
  | [c1] => if c1.isDigit then k [c1] [] else none
  | c1 :: c2 :: rest =>
    if c1.isDigit then
      if c2.isDigit then (k [c1, c2] rest) <|> (k [c1] (c2 :: rest))
      else k [c1] (c2 :: rest)
    else none

/-- Match the character class `[.\-]`. -/
def trySep {α : Type} (cs : List Char) (k : List Char → Option α) : Option α :=
  match cs with
  | [] => none
  | c :: rest => if c = '.' ∨ c = '-' then k rest else none

/-- Match a literal underscore. -/
def tryUnd {α : Type} (cs : List Char) (k : List Char → Option α) : Option α :=
  match cs with
  | '_' :: rest => k rest
  | _ => none

/-- Match `(\d{2,4})` greedily at the head of `cs` (try four digits, then
three, then two). -/
def tryY {α : Type} (cs : List Char) (k : List Char → List Char → Option α) : Option α :=
  match cs with
  | c1 :: c2 :: c3 :: c4 :: rest =>
    if c1.isDigit && c2.isDigit then
      if c3.isDigit then
        if c4.isDigit then
          (k [c1, c2, c3, c4] rest) <|> (k [c1, c2, c3] (c4 :: rest)) <|>
            (k [c1, c2] (c3 :: c4 :: rest))
        else (k [c1, c2, c3] (c4 :: rest)) <|> (k [c1, c2] (c3 :: c4 :: rest))
      else k [c1, c2] (c3 :: c4 :: rest)
    else none
  | [c1, c2, c3] =>
    if c1.isDigit && c2.isDigit then
      if c3.isDigit then (k [c1, c2, c3] []) <|> (k [c1, c2] [c3])
      else k [c1, c2] [c3]
    else none
  | [c1, c2] => if c1.isDigit && c2.isDigit then k [c1, c2] [] else none
  | _ => none

/-- The six groups of the range pattern. -/
abbrev RangeGroups :=
  List Char × List Char × List Char × List Char × List Char × List Char

/-- Attempt to match the range pattern at the start of `cs`. -/
def matchRangeAt (cs : List Char) : Option RangeGroups :=
  tryD cs fun m1 r =>
    trySep r fun r =>
      tryD r fun d1 r =>
        trySep r fun r =>
          tryY r fun y1 r =>
            tryUnd r fun r =>
              tryD r fun m2 r =>
                trySep r fun r =>
                  tryD r fun d2 r =>
                    trySep r fun r =>
                      tryY r fun y2 _ => some (m1, d1, y1, m2, d2, y2)

/-- The three groups of the single-date pattern. -/
abbrev SingleGroups := List Char × List Char × List Char

/-- Attempt to match the single-date pattern at the start of `cs`. -/
def matchSingleAt (cs : List Char) : Option SingleGroups :=
  tryD cs fun m1 r =>
    trySep r fun r =>
      tryD r fun d1 r =>
        trySep r fun r =>
          tryY r fun y1 _ => some (m1, d1, y1)

/-- `re.search` with the range pattern: leftmost match wins. -/
def searchRange : List Char → Option RangeGroups
  | [] => matchRangeAt []
  | c :: rest =>
    match matchRangeAt (c :: rest) with
    | some g => some g
    | none => searchRange rest

/-- `re.search` with the single-date pattern: leftmost match wins. -/
def searchSingle : List Char → Option SingleGroups
  | [] => matchSingleAt []
  | c :: rest =>
    match matchSingleAt (c :: rest) with
    | some g => some g
    | none => searchSingle rest

/-- `filename[:-4] if filename.lower().endswith(".csv") else filename`. -/
def stripCsv (cs : List Char) : List Char :=
  match cs.reverse with
  | v :: s :: c :: dot :: restRev =>
    if (v = 'v' ∨ v = 'V') ∧ (s = 's' ∨ s = 'S') ∧ (c = 'c' ∨ c = 'C') ∧ dot = '.'
    then restRev.reverse else cs
  | _ => cs

/-- Core of `extract_dates_from_filename`, on the character list of the
filename: strip a trailing `.csv`, try the range pattern, then the single
pattern, building dates with `_build_date`. -/
def extract_dates_core (dayfirst : Bool) (cs : List Char) :
    Option PyDate × Option PyDate :=
  match searchRange (stripCsv cs) with
  | some (m1, d1, y1, m2, d2, y2) =>
    (_build_date dayfirst m1 d1 y1, _build_date dayfirst m2 d2 y2)
  | none =>
    match searchSingle (stripCsv cs) with
    | some (m1, d1, y1) => (_build_date dayfirst m1 d1 y1, none)
    | none => (none, none)

/-- `functions.py` `extract_dates_from_filename` (with its default
`dayfirst=False`). -/
def extract_dates_from_filename (filename : String) (dayfirst : Bool := false) :
    Option PyDate × Option PyDate :=
  extract_dates_core dayfirst filename.data

/-! ### The Defensive CSV Reader (`robust_read_csv`)

Bytes are modelled as `List Nat` (each < 256 in practice).  The decode
chain of the source — try `utf-8-sig`, then `cp1252`, then fall back to
UTF-8 with replacement (which never fails) — is embedded byte for byte.
-/

/-- A UTF-8 continuation byte. -/
def isCont (b : Nat) : Bool := 0x80 ≤ b && b ≤ 0xBF

/-- Strict UTF-8 decoding (Python `bytes.decode("utf-8")`): `none` on any
invalid sequence, including overlong forms and surrogates. -/
def utf8DecodeStrict : List Nat → Option (List Char)
  | [] => some []
  | b :: bs =>
    if b < 0x80 then
      (utf8DecodeStrict bs).map (fun cs => Char.ofNat b :: cs)
    else if 0xC2 ≤ b && b ≤ 0xDF then
      match bs with
      | c1 :: bs1 =>
        if isCont c1 then
          (utf8DecodeStrict bs1).map (fun cs =>
            Char.ofNat ((b - 0xC0) * 0x40 + (c1 - 0x80)) :: cs)
        else none
      | [] => none
    else if 0xE0 ≤ b && b ≤ 0xEF then
      match bs with
      | c1 :: c2 :: bs2 =>
        if (if b = 0xE0 then 0xA0 ≤ c1 && c1 ≤ 0xBF
            else if b = 0xED then 0x80 ≤ c1 && c1 ≤ 0x9F
            else isCont c1) && isCont c2 then
          (utf8DecodeStrict bs2).map (fun cs =>
            Char.ofNat ((b - 0xE0) * 0x1000 + (c1 - 0x80) * 0x40 + (c2 - 0x80)) :: cs)
        else none
      | _ => none
    else if 0xF0 ≤ b && b ≤ 0xF4 then
      match bs with
      | c1 :: c2 :: c3 :: bs3 =>
        if (if b = 0xF0 then 0x90 ≤ c1 && c1 ≤ 0xBF
            else if b = 0xF4 then 0x80 ≤ c1 && c1 ≤ 0x8F
            else isCont c1) && isCont c2 && isCont c3 then
          (utf8DecodeStrict bs3).map (fun cs =>
            Char.ofNat ((b - 0xF0) * 0x40000 + (c1 - 0x80) * 0x1000 +
              (c2 - 0x80) * 0x40 + (c3 - 0x80)) :: cs)
        else none
      | _ => none
    else none

/-- UTF-8 decoding with `errors="replace"`: total.  An invalid sequence
contributes U+FFFD and decoding resumes after the offending lead byte
(CPython groups a maximal invalid subpart per U+FFFD; the exact number of
replacement characters is irrelevant to every property proved here — only
totality and agreement on valid input matter). -/
def utf8DecodeReplace : List Nat → List Char
  | [] => []
  | b :: bs =>
    if b < 0x80 then Char.ofNat b :: utf8DecodeReplace bs
    else if 0xC2 ≤ b && b ≤ 0xDF then
      match bs with
      | c1 :: bs1 =>
        if isCont c1 then
          Char.ofNat ((b - 0xC0) * 0x40 + (c1 - 0x80)) :: utf8DecodeReplace bs1
        else '�' :: utf8DecodeReplace (c1 :: bs1)
      | [] => ['�']
    else if 0xE0 ≤ b && b ≤ 0xEF then
      match bs with
      | c1 :: c2 :: bs2 =>
        if (if b = 0xE0 then 0xA0 ≤ c1 && c1 ≤ 0xBF
            else if b = 0xED then 0x80 ≤ c1 && c1 ≤ 0x9F
            else isCont c1) && isCont c2 then
          Char.ofNat ((b - 0xE0) * 0x1000 + (c1 - 0x80) * 0x40 + (c2 - 0x80)) ::
            utf8DecodeReplace bs2
        else '�' :: utf8DecodeReplace (c1 :: c2 :: bs2)
      | [c1] => '�' :: utf8DecodeReplace [c1]
      | [] => ['�']
    else if 0xF0 ≤ b && b ≤ 0xF4 then
      match bs with
      | c1 :: c2 :: c3 :: bs3 =>
        if (if b = 0xF0 then 0x90 ≤ c1 && c1 ≤ 0xBF
            else if b = 0xF4 then 0x80 ≤ c1 && c1 ≤ 0x8F
            else isCont c1) && isCont c2 && isCont c3 then
          Char.ofNat ((b - 0xF0) * 0x40000 + (c1 - 0x80) * 0x1000 +
            (c2 - 0x80) * 0x40 + (c3 - 0x80)) :: utf8DecodeReplace bs3
        else '�' :: utf8DecodeReplace (c1 :: c2 :: c3 :: bs3)
      | [c1, c2] => '�' :: utf8DecodeReplace [c1, c2]
      | [c1] => '�' :: utf8DecodeReplace [c1]
      | [] => ['�']
    else '�' :: utf8DecodeReplace bs

/-- `utf-8-sig`: strip the UTF-8 byte-order mark if present, then decode
strictly. -/
def utf8SigDecode : List Nat → Option (List Char)
  | 0xEF :: 0xBB :: 0xBF :: rest => utf8DecodeStrict rest
  | bs => utf8DecodeStrict bs

/-- The Windows-1252 character of byte `b`: identity outside 0x80–0x9F;
the standard table inside, with the five unmapped holes (0x81, 0x8D, 0x8F,
0x90, 0x9D) on which `bytes.decode("cp1252")` raises. -/
def cp1252Char (b : Nat) : Option Char :=
  if b < 0x80 then some (Char.ofNat b)
  else if b = 0x80 then some (Char.ofNat 0x20AC)
  else if b = 0x82 then some (Char.ofNat 0x201A)
  else if b = 0x83 then some (Char.ofNat 0x0192)
  else if b = 0x84 then some (Char.ofNat 0x201E)
  else if b = 0x85 then some (Char.ofNat 0x2026)
  else if b = 0x86 then some (Char.ofNat 0x2020)
  else if b = 0x87 then some (Char.ofNat 0x2021)
  else if b = 0x88 then some (Char.ofNat 0x02C6)
  else if b = 0x89 then some (Char.ofNat 0x2030)
  else if b = 0x8A then some (Char.ofNat 0x0160)
  else if b = 0x8B then some (Char.ofNat 0x2039)
  else if b = 0x8C then some (Char.ofNat 0x0152)
  else if b = 0x8E then some (Char.ofNat 0x017D)
  else if b = 0x91 then some (Char.ofNat 0x2018)
  else if b = 0x92 then some (Char.ofNat 0x2019)
  else if b = 0x93 then some (Char.ofNat 0x201C)
  else if b = 0x94 then some (Char.ofNat 0x201D)
  else if b = 0x95 then some (Char.ofNat 0x2022)
  else if b = 0x96 then some (Char.ofNat 0x2013)
  else if b = 0x97 then some (Char.ofNat 0x2014)
  else if b = 0x98 then some (Char.ofNat 0x02DC)
  else if b = 0x99 then some (Char.ofNat 0x2122)
  else if b = 0x9A then some (Char.ofNat 0x0161)
  else if b = 0x9B then some (Char.ofNat 0x203A)
  else if b = 0x9C then some (Char.ofNat 0x0153)
  else if b = 0x9E then some (Char.ofNat 0x017E)
  else if b = 0x9F then some (Char.ofNat 0x0178)
  else if 0xA0 ≤ b && b ≤ 0xFF then some (Char.ofNat b)
  else none

/-- Python `bytes.decode("cp1252")`. -/
def cp1252Decode (bs : List Nat) : Option (List Char) := bs.mapM cp1252Char

/-- The decode chain of `robust_read_csv`: `utf-8-sig`, then `cp1252`,
then UTF-8 with replacement.  Total — the last step never fails, exactly
as in the source. -/
def decodeBytes (raw : List Nat) : List Char :=
  match utf8SigDecode raw with
  | some cs => cs
  | none =>
    match cp1252Decode raw with
    | some cs => cs
    | none => utf8DecodeReplace raw

/-- The line-break characters recognized by Python `str.splitlines`. -/
def isLineBreak (c : Char) : Bool :=
  c = '\n' || c = '\r' || c = '\x0B' || c = '\x0C' ||
    c = '\x1C' || c = '\x1D' || c = '\x1E' || c = '\x85' ||
    c = '\u2028' || c = '\u2029'

/-- Worker for `pySplitlines`: `acc` holds the current line reversed. -/
def splitLinesAux : List Char → List Char → List String
  | [], [] => []
  | [], acc => [String.mk acc.reverse]
  | '\r' :: '\n' :: rest, acc => String.mk acc.reverse :: splitLinesAux rest []
  | c :: rest, acc =>
    if isLineBreak c then String.mk acc.reverse :: splitLinesAux rest []
    else splitLinesAux rest (c :: acc)

/-- Python `str.splitlines`: splits on the line-break set, `\r\n` counted
once, no trailing empty line. -/
def pySplitlines (cs : List Char) : List String := splitLinesAux cs []

/-- Field splitting of one line, `csv` module semantics (default dialect):
fields separated by `sep`; a quote at field start opens a quoted field in
which the separator is literal and a doubled quote escapes a quote.
Multi-line quoted fields do not arise here because the reader is fed
single lines.  The flag is the in-quotes state, `acc` the current field
reversed. -/
def parseCsvAux (sep : Char) : Bool → List Char → List Char → List String
  | _, [], acc => [String.mk acc.reverse]
  | false, c :: rest, acc =>
    if c = sep then String.mk acc.reverse :: parseCsvAux sep false rest []
    else if c = '"' ∧ acc = [] then parseCsvAux sep true rest acc
    else parseCsvAux sep false rest (c :: acc)
  | true, '"' :: '"' :: rest, acc => parseCsvAux sep true rest ('"' :: acc)
  | true, '"' :: rest, acc => parseCsvAux sep false rest acc
  | true, c :: rest, acc => parseCsvAux sep true rest (c :: acc)

/-- One `csv.reader` row from one line (an empty line gives the empty
row `[]`, which `csv.reader` yields for blank lines). -/
def parseCsvLine (sep : Char) (line : String) : List String :=
  if line = "" then [] else parseCsvAux sep false line.data []

/-- A cell of a parsed table: a string, an integer, a date, or the
missing marker (pandas `NaN`/`NaT`). -/
inductive Cell where
  | str : String → Cell
  | int : Int → Cell
  | date : PyDate → Cell
  | na : Cell
deriving DecidableEq

/-- A pandas DataFrame, shallowly: named columns and row-major cells. -/
structure DataFrame where
  cols : List String
  rows : List (List Cell)
deriving DecidableEq

/-- pandas turns an empty CSV field into `NaN`. -/
def fieldToCell (s : String) : Cell := if s = "" then Cell.na else Cell.str s

/-- Model of `pd.read_csv(io.StringIO(text), sep=sep, engine="python",
on_bad_lines="skip", usecols=range(keepCols))` on the split lines:
blank lines are skipped (`skip_blank_lines=True`); the first non-blank
row is the header; a data row with more fields than the header is a "bad
line" and is dropped by `on_bad_lines="skip"`; a data row with fewer
fields is padded with `NaN`; `usecols=range(keepCols)` keeps the first
`keepCols` columns positionally.  With no non-blank line at all pandas
raises `EmptyDataError`.  (The implicit-index special case for uniformly
over-long rows and dtype inference are outside the behaviour exercised
and claimed here.) -/
def pandas_read_csv (sep : Char) (keepCols : Nat) (lines : List String) :
    Except String DataFrame :=
  match lines.filter (fun l => decide (l ≠ "")) with
  | [] => Except.error "EmptyDataError: No columns to parse from file"
  | h :: body =>
    Except.ok ⟨(parseCsvLine sep h).take keepCols,
      ((body.map (parseCsvLine sep)).filter
          (fun r => decide (r.length ≤ (parseCsvLine sep h).length))).map
        (fun r => (r.map fieldToCell ++
          List.replicate ((parseCsvLine sep h).length - r.length) Cell.na).take keepCols)⟩

/-- `functions.py` `robust_read_csv`.  The byte source is `raw`; the
outcome of `csv.Sniffer().sniff(text[:32768], delimiters=[",",";","\t","|"])`
is abstracted as the parameter `sniffResult` (`none` when the sniffer
raised), and the source's fallback `sep = ","` is `Option.getD`.
First pass: the `csv.reader` header is the first line's row (`lines = []`
means `StopIteration`, returning an empty table and 0); `keep_cols =
min(40, len(header))`; `skipped` counts remaining rows with fewer than
`keep_cols` fields.  Second pass: pandas parses the same lines. -/
def robust_read_csv (sniffResult : Option Char) (raw : List Nat) :
    Except String (DataFrame × Nat) :=
  match pySplitlines (decodeBytes raw) with
  | [] => Except.ok (⟨[], []⟩, 0)
  | headerLine :: rest =>
    (pandas_read_csv (sniffResult.getD ',')
        (min 40 (parseCsvLine (sniffResult.getD ',') headerLine).length)
        (headerLine :: rest)).map
      (fun df => (df, rest.countP (fun l => decide ((parseCsvLine (sniffResult.getD ',') l).length <
        min 40 (parseCsvLine (sniffResult.getD ',') headerLine).length))))

/-- ASCII bytes of a string, for concrete test inputs. -/
def asciiBytes (s : String) : List Nat := s.data.map Char.toNat

/-! ### Date Coercion (`coerce_named_date_columns`) -/

/-- `functions.py` `_REQUIRED_DATE_COLS`. -/
def _REQUIRED_DATE_COLS : List String :=
  ["Begin Date", "End Date", "Submission Date", "Amendment Effective Date"]

/-- `pd.to_datetime(value, errors="coerce")` on one cell.  The string
parser (with its `dayfirst`/`format` variations) is the abstract
parameter `parse`; a value it cannot parse becomes the missing marker
`NaT`, never an error.  Missing stays missing; an existing date passes
through; an integer is parsed via its rendering (pandas' epoch
interpretation is folded into `parse`). -/
def coerceCell (parse : String → Option PyDate) : Cell → Cell
  | Cell.str s =>
    match parse s with
    | some d => Cell.date d
    | none => Cell.na
  | Cell.int n =>
    match parse (toString n) with
    | some d => Cell.date d
    | none => Cell.na
  | Cell.date d => Cell.date d
  | Cell.na => Cell.na

/-- `functions.py` `coerce_named_date_columns`: copy the frame and, for
each of the four required columns present by exact name, coerce that
column with `to_datetime(errors="coerce")`; every other column is left
untouched. -/
def coerce_named_date_columns (parse : String → Option PyDate) (df : DataFrame) : DataFrame :=
  ⟨df.cols, df.rows.map (fun r => List.zipWith
    (fun name cell => if name ∈ _REQUIRED_DATE_COLS then coerceCell parse cell else cell)
    df.cols r)⟩

/-! ### The Row Enricher (detail pipeline of `app.py`) -/

/-- `app.py` `SCO_MAP_RAW` (verbatim, including the misspelling alias). -/
def SCO_MAP_RAW : List (String × String) :=
  [("CRUZ; ASHLIE", "Ashlie"),
   ("FITZGERALD; ZACHARY", "Zach"),
   ("GRABARZ; FRANK", "Frank"),
   ("JACKS; MELISSSA", "Melissa"),
   ("MCAFEE; CLIFFORD", "Clif"),
   ("POST; TODD", "Todd"),
   ("RAINS; SAVANNA", "Savanna"),
   ("WOJTIUK; BRADLEY", "Brad"),
   ("MOULDEN; MATTHEW", "Matthew"),
   ("VANDA; JESSICA", "Jessica"),
   ("EMOND; ELIJAH", "Elijah"),
   ("BUTTERFIELD; KATHERINE", "Katherine"),
   ("COSS; SAVANNA", "Savanna"),
   ("MONTROS; DENNIS", "Dennis"),
   ("AGNEW; JACQUELINE", "Jackie"),
   ("AGNEW; JAQUELINE", "Jackie")]

/-- The whitespace characters Python `str.strip()` removes (the common
ones; note U+00A0 is Unicode whitespace and is stripped at the ends). -/
def isPySpace (c : Char) : Bool :=
  c = ' ' || c = '\t' || c = '\n' || c = '\r' || c = '\x0B' || c = '\x0C' ||
    c = '\x1C' || c = '\x1D' || c = '\x1E' || c = '\x85' || c = '\xA0'

/-- Python `str.strip()`. -/
def pyStrip (s : String) : String :=
  String.mk (((s.data.dropWhile isPySpace).reverse.dropWhile isPySpace).reverse)

/-- Python `str.upper()` (ASCII case mapping suffices for the map's keys). -/
def pyUpper (s : String) : String := String.mk (s.data.map Char.toUpper)

/-- `app.py` `_norm_key`: `str(s).strip().upper().replace(' ', ' ')`. -/
def _norm_key (s : String) : String :=
  String.mk ((pyUpper (pyStrip s)).data.map (fun c => if c = '\xA0' then ' ' else c))

/-- `app.py` `SCO_MAP`: the raw map re-keyed through `_norm_key` (the
keys stay distinct, so association-list lookup matches the dict). -/
def SCO_MAP : List (String × String) :=
  SCO_MAP_RAW.map (fun p => (_norm_key p.1, p.2))

/-- Python `str()` of a cell value, as `Series.map(_norm_key)` applies it
(`str(nan)` is `"nan"`; the date rendering is unpadded, which is never
exercised because SCO cells are strings or missing). -/
def pyStr : Cell → String
  | Cell.str s => s
  | Cell.int n => toString n
  | Cell.date d => toString d.year ++ "-" ++ toString d.month ++ "-" ++ toString d.day
  | Cell.na => "nan"

/-- `df.insert(pos, name, scalar)`: insert a column of one repeated value
at position `pos`. -/
def insertScalarCol (pos : Nat) (name : String) (v : Cell) (df : DataFrame) : DataFrame :=
  ⟨df.cols.insertIdx pos name, df.rows.map (fun r => r.insertIdx pos v)⟩

/-- The normalized operator value: `cleaned_sco.map(SCO_MAP).fillna("")`
for one raw cell — always a string, the empty string when unmapped. -/
def sco2Value (c : Cell) : Cell :=
  Cell.str ((SCO_MAP.lookup (_norm_key (pyStr c))).getD "")

/-- The four leading derived columns of the detail pipeline:
`df.insert(0, "Year", ...)`, `df.insert(1, "Month", ...)`,
`df.insert(2, "From", ...)`, `df.insert(3, "To", ...)`. -/
def insertDerivedCols (yearVal : Int) (monthVal : String) (fromDt toDt : PyDate)
    (df : DataFrame) : DataFrame :=
  insertScalarCol 3 "To" (Cell.date toDt)
    (insertScalarCol 2 "From" (Cell.date fromDt)
      (insertScalarCol 1 "Month" (Cell.str monthVal)
        (insertScalarCol 0 "Year" (Cell.int yearVal) df)))

/-- The per-file enrichment step of `app.py`'s detail pipeline: insert
Year/Month/From/To at positions 0–3, then, if an `SCO` column exists,
insert `SCO2` at position 4 with `df["SCO"].map(_norm_key).map(SCO_MAP).fillna("")`. -/
def detail_enrich (yearVal : Int) (monthVal : String) (fromDt toDt : PyDate)
    (df : DataFrame) : DataFrame :=
  if "SCO" ∈ (insertDerivedCols yearVal monthVal fromDt toDt df).cols then
    ⟨(insertDerivedCols yearVal monthVal fromDt toDt df).cols.insertIdx 4 "SCO2",
     (insertDerivedCols yearVal monthVal fromDt toDt df).rows.map (fun r =>
       r.insertIdx 4 (sco2Value (r.getD
         ((insertDerivedCols yearVal monthVal fromDt toDt df).cols.indexOf "SCO")
         Cell.na)))⟩
  else insertDerivedCols yearVal monthVal fromDt toDt df

/-! ### The Spreadsheet Exporter's persistence tail (`export_xlsx_bytes`)

The workbook serialization itself is xlsxwriter I/O; its resulting bytes
are the parameter `blob`.  What remains of `export_xlsx_bytes` after the
writer block is exactly:

    if base_dir:
        base_dir.mkdir(parents=True, exist_ok=True)
        (base_dir / filename).write_bytes(output.getvalue())
    return output.getvalue()

The two filesystem calls can raise `OSError`; their outcomes are the
parameters `mkdirResult` and `writeResult`.  There is no handler around
them, so a failure propagates instead of reaching the `return`. -/
def export_xlsx_bytes (blob : List Nat) (base_dir : Option String)
    (mkdirResult : Except String Unit) (writeResult : Except String Unit) :
    Except String (List Nat) :=
  match base_dir with
  | none => Except.ok blob
  | some _ =>
    match mkdirResult with
    | Except.error e => Except.error e
    | Except.ok _ =>
      match writeResult with
      | Except.error e => Except.error e
      | Except.ok _ => Except.ok blob

/-! ### Lemmas about the pattern matcher -/

lemma sep_isDigit {s : Char} (hs : s = '.' ∨ s = '-') : s.isDigit = false := by
  rcases hs with rfl | rfl <;> decide

lemma cons_head_notDigit {x : Char} (hx : x.isDigit = false) (l : List Char) :
    ∀ c, (x :: l).head? = some c → c.isDigit = false := by
  intro c hc
  simp only [List.head?_cons, Option.some.injEq] at hc
  subst hc
  exact hx

lemma tryD_token {α : Type} (cs t rest : List Char)
    (k : List Char → List Char → Option α) (v : α)
    (hlen : t.length = 1 ∨ t.length = 2) (hdig : ∀ c ∈ t, c.isDigit = true)
    (hrest : ∀ c, rest.head? = some c → c.isDigit = false)
    (hcs : cs = t ++ rest) (hk : k t rest = some v) :
    tryD cs k = some v := by
  subst hcs
  rcases hlen with h1 | h2
  · obtain ⟨a, rfl⟩ := List.length_eq_one.mp h1
    have ha : a.isDigit = true := hdig a (by simp)
    cases rest with
    | nil => simpa [tryD, ha] using hk
    | cons b bs =>
      have hb : b.isDigit = false := hrest b rfl
      simpa [tryD, ha, hb] using hk
  · obtain ⟨a, b, rfl⟩ := List.length_eq_two.mp h2
    have ha : a.isDigit = true := hdig a (by simp)
    have hb : b.isDigit = true := hdig b (by simp)
    simp [tryD, ha, hb, hk]

lemma tryY_token {α : Type} (cs t rest : List Char)
    (k : List Char → List Char → Option α) (v : α)
    (hlen : t.length = 2 ∨ t.length = 4) (hdig : ∀ c ∈ t, c.isDigit = true)
    (hrest : ∀ c, rest.head? = some c → c.isDigit = false)
    (hcs : cs = t ++ rest) (hk : k t rest = some v) :
    tryY cs k = some v := by
  subst hcs
  rcases hlen with h2 | h4
  · obtain ⟨a, b, rfl⟩ := List.length_eq_two.mp h2
    have ha : a.isDigit = true := hdig a (by simp)
    have hb : b.isDigit = true := hdig b (by simp)
    cases rest with
    | nil => simpa [tryY, ha, hb] using hk
    | cons c1 cs1 =>
      have hc1 : c1.isDigit = false := hrest c1 rfl
      cases cs1 with
      | nil => simpa [tryY, ha, hb, hc1] using hk
      | cons c2 cs2 => simpa [tryY, ha, hb, hc1] using hk
  · rcases t with _ | ⟨a, _ | ⟨b, _ | ⟨c, _ | ⟨d, _ | ⟨e, t'⟩⟩⟩⟩⟩ <;> simp at h4
    have ha : a.isDigit = true := hdig a (by simp)
    have hb : b.isDigit = true := hdig b (by simp)
    have hc : c.isDigit = true := hdig c (by simp)
    have hd : d.isDigit = true := hdig d (by simp)
    simp [tryY, ha, hb, hc, hd, hk]

lemma trySep_cons {α : Type} (s : Char) (rest : List Char) (k : List Char → Option α)
    (hs : s = '.' ∨ s = '-') : trySep (s :: rest) k = k rest := by
  simp [trySep, hs]

lemma tryUnd_cons {α : Type} (rest : List Char) (k : List Char → Option α) :
    tryUnd ('_' :: rest) k = k rest := rfl

lemma matchRangeAt_canonical
    (m1 d1 y1 m2 d2 y2 : List Char) (s1 s2 s3 s4 : Char)
    (hm1 : m1.length = 1 ∨ m1.length = 2) (hm1d : ∀ c ∈ m1, c.isDigit = true)
    (hd1 : d1.length = 1 ∨ d1.length = 2) (hd1d : ∀ c ∈ d1, c.isDigit = true)
    (hy1 : y1.length = 2 ∨ y1.length = 4) (hy1d : ∀ c ∈ y1, c.isDigit = true)
    (hm2 : m2.length = 1 ∨ m2.length = 2) (hm2d : ∀ c ∈ m2, c.isDigit = true)
    (hd2 : d2.length = 1 ∨ d2.length = 2) (hd2d : ∀ c ∈ d2, c.isDigit = true)
    (hy2 : y2.length = 2 ∨ y2.length = 4) (hy2d : ∀ c ∈ y2, c.isDigit = true)
    (hs1 : s1 = '.' ∨ s1 = '-') (hs2 : s2 = '.' ∨ s2 = '-')
    (hs3 : s3 = '.' ∨ s3 = '-') (hs4 : s4 = '.' ∨ s4 = '-') :
    matchRangeAt (m1 ++ s1 :: (d1 ++ s2 :: (y1 ++ '_' :: (m2 ++ s3 :: (d2 ++ s4 :: y2)))))
      = some (m1, d1, y1, m2, d2, y2) := by
  unfold matchRangeAt
  exact tryD_token _ m1 _ _ _ hm1 hm1d (cons_head_notDigit (sep_isDigit hs1) _) rfl
    ((trySep_cons _ _ _ hs1).trans
      (tryD_token _ d1 _ _ _ hd1 hd1d (cons_head_notDigit (sep_isDigit hs2) _) rfl
        ((trySep_cons _ _ _ hs2).trans
          (tryY_token _ y1 _ _ _ hy1 hy1d (cons_head_notDigit (by decide) _) rfl
            ((tryUnd_cons _ _).trans
              (tryD_token _ m2 _ _ _ hm2 hm2d (cons_head_notDigit (sep_isDigit hs3) _) rfl
                ((trySep_cons _ _ _ hs3).trans
                  (tryD_token _ d2 _ _ _ hd2 hd2d (cons_head_notDigit (sep_isDigit hs4) _) rfl
                    ((trySep_cons _ _ _ hs4).trans
                      (tryY_token _ y2 [] _ _ hy2 hy2d (fun c hc => by simp at hc)
                        (List.append_nil y2).symm rfl))))))))))

lemma searchRange_of_match (cs : List Char) (g : RangeGroups)
    (h : matchRangeAt cs = some g) : searchRange cs = some g := by
  cases cs with
  | nil => simpa [searchRange] using h
  | cons c rest => simp [searchRange, h]

lemma stripCsv_append_csv (l : List Char) :
    stripCsv (l ++ ['.', 'c', 's', 'v']) = l := by
  simp [stripCsv, List.reverse_append]

lemma tryD_none {α : Type} (c : Char) (rest : List Char)
    (k : List Char → List Char → Option α) (hc : c.isDigit = false) :
    tryD (c :: rest) k = none := by
  cases rest <;> simp [tryD, hc]

lemma searchRange_none (cs : List Char) (h : ∀ c ∈ cs, c.isDigit = false) :
    searchRange cs = none := by
  induction cs with
  | nil => rfl
  | cons c rest ih =>
    have hm : matchRangeAt (c :: rest) = none := tryD_none c rest _ (h c (by simp))
    simp only [searchRange, hm]
    exact ih (fun x hx => h x (by simp [hx]))

lemma searchSingle_none (cs : List Char) (h : ∀ c ∈ cs, c.isDigit = false) :
    searchSingle cs = none := by
  induction cs with
  | nil => rfl
  | cons c rest ih =>
    have hm : matchSingleAt (c :: rest) = none := tryD_none c rest _ (h c (by simp))
    simp only [searchSingle, hm]
    exact ih (fun x hx => h x (by simp [hx]))

lemma mem_stripCsv (cs : List Char) : ∀ x ∈ stripCsv cs, x ∈ cs := by
  intro x hx
  unfold stripCsv at hx
  split at hx
  case _ v s c dot restRev heq =>
    split at hx
    · have hx' : x ∈ restRev := List.mem_reverse.mp hx
      have hr : x ∈ cs.reverse := by rw [heq]; simp [hx']
      exact List.mem_reverse.mp hr
    · exact hx
  case _ => exact hx

/-! ### Lemmas about the CSV reader -/

lemma pandas_read_csv_error (sep : Char) (keep : Nat) (lines : List String) (e : String)
    (h : pandas_read_csv sep keep lines = Except.error e) : ∀ l ∈ lines, l = "" := by
  unfold pandas_read_csv at h
  cases hf : lines.filter (fun l => decide (l ≠ "")) with
  | nil =>
    intro l hm
    have := List.filter_eq_nil_iff.mp hf l hm
    simpa using this
  | cons a t => rw [hf] at h; simp at h

lemma pandas_read_csv_ok_of_exists (sep : Char) (keep : Nat) (lines : List String)
    (h : ∃ l ∈ lines, l ≠ "") : ∃ df, pandas_read_csv sep keep lines = Except.ok df := by
  unfold pandas_read_csv
  cases hf : lines.filter (fun l => decide (l ≠ "")) with
  | nil =>
    exfalso
    obtain ⟨l, hm, hne⟩ := h
    have := List.filter_eq_nil_iff.mp hf l hm
    exact hne (by simpa using this)
  | cons a t => exact ⟨_, rfl⟩

lemma pandas_read_csv_cons (sep : Char) (keep : Nat) (h : String) (body : List String)
    (hne : h ≠ "") :
    pandas_read_csv sep keep (h :: body) =
      Except.ok ⟨(parseCsvLine sep h).take keep,
        (((body.filter (fun l => decide (l ≠ ""))).map (parseCsvLine sep)).filter
            (fun r => decide (r.length ≤ (parseCsvLine sep h).length))).map
          (fun r => (r.map fieldToCell ++
            List.replicate ((parseCsvLine sep h).length - r.length) Cell.na).take keep)⟩ := by
  unfold pandas_read_csv
  rw [List.filter_cons_of_pos (by simpa using hne)]

lemma pandas_read_csv_rect (sep : Char) (keep : Nat) (lines : List String) (df : DataFrame)
    (hok : pandas_read_csv sep keep lines = Except.ok df) :
    ∀ r ∈ df.rows, r.length = df.cols.length := by
  unfold pandas_read_csv at hok
  cases hf : lines.filter (fun l => decide (l ≠ "")) with
  | nil => rw [hf] at hok; simp at hok
  | cons h body =>
    rw [hf] at hok
    simp only [Except.ok.injEq] at hok
    subst hok
    intro r hr
    simp only [List.mem_map] at hr
    obtain ⟨x, hx, rfl⟩ := hr
    have hxn : x.length ≤ (parseCsvLine sep h).length := by
      have := (List.mem_filter.mp hx).2
      simpa using this
    simp [List.length_take, List.length_append, Nat.add_sub_cancel' hxn]

lemma take_min_length {α : Type} (l : List α) (m : Nat) :
    l.take (min m l.length) = l.take m := by
  rcases le_total m l.length with h | h
  · rw [min_eq_left h]
  · rw [min_eq_right h, List.take_length, List.take_of_length_le h]

lemma robust_read_csv_cons (sniff : Option Char) (raw : List Nat)
    (headerLine : String) (rest : List String)
    (hl : pySplitlines (decodeBytes raw) = headerLine :: rest) (hne : headerLine ≠ "") :
    robust_read_csv sniff raw = Except.ok
      (⟨(parseCsvLine (sniff.getD ',') headerLine).take
          (min 40 (parseCsvLine (sniff.getD ',') headerLine).length),
        (((rest.filter (fun l => decide (l ≠ ""))).map (parseCsvLine (sniff.getD ','))).filter
            (fun r => decide (r.length ≤ (parseCsvLine (sniff.getD ',') headerLine).length))).map
          (fun r => (r.map fieldToCell ++
              List.replicate ((parseCsvLine (sniff.getD ',') headerLine).length - r.length)
                Cell.na).take
            (min 40 (parseCsvLine (sniff.getD ',') headerLine).length))⟩,
       rest.countP (fun l => decide ((parseCsvLine (sniff.getD ',') l).length <
         min 40 (parseCsvLine (sniff.getD ',') headerLine).length))) := by
  simp only [robust_read_csv, hl]
  rw [pandas_read_csv_cons _ _ _ _ hne]
  rfl

/-! ### Claims C1–C4 -/

/-- Claim C1: `robust_read_csv` returns a (table, skipped) pair for any
content that is merely malformed; the only raise is the read error for
input with no (non-blank) header row — never for undecodable bytes,
since the decode chain ends in a total fallback; and content with no
lines at all yields an empty table with zero skipped rows. -/
theorem robust_read_csv_error_spec (sniff : Option Char) (raw : List Nat) :
    (pySplitlines (decodeBytes raw) = [] →
      robust_read_csv sniff raw = Except.ok (⟨[], []⟩, 0)) ∧
    (∀ e, robust_read_csv sniff raw = Except.error e →
      pySplitlines (decodeBytes raw) ≠ [] ∧
        ∀ l ∈ pySplitlines (decodeBytes raw), l = "") ∧
    ((∃ l ∈ pySplitlines (decodeBytes raw), l ≠ "") →
      ∃ df skipped, robust_read_csv sniff raw = Except.ok (df, skipped)) := by
  cases hl : pySplitlines (decodeBytes raw) with
  | nil =>
    refine ⟨fun _ => ?_, fun e he => ?_, fun hex => ?_⟩
    · simp [robust_read_csv, hl]
    · simp [robust_read_csv, hl] at he
    · obtain ⟨l, hm, _⟩ := hex
      simp at hm
  | cons hL rst =>
    refine ⟨fun h0 => ?_, fun e he => ?_, fun hex => ?_⟩
    · simp at h0
    · simp only [robust_read_csv, hl] at he
      cases hp : pandas_read_csv (sniff.getD ',')
          (min 40 (parseCsvLine (sniff.getD ',') hL).length) (hL :: rst) with
      | ok df => rw [hp] at he; simp [Except.map] at he
      | error e2 =>
        have hall := pandas_read_csv_error _ _ _ _ hp
        exact ⟨by simp, hall⟩
    · simp only [robust_read_csv, hl]
      obtain ⟨df, hdf⟩ := pandas_read_csv_ok_of_exists (sniff.getD ',')
        (min 40 (parseCsvLine (sniff.getD ',') hL).length) (hL :: rst) hex
      rw [hdf]
      exact ⟨df, _, rfl⟩

/-- Witness for C1: empty byte content yields the empty table with zero
skipped rows, and well-formed content yields an `ok` pair. -/
theorem robust_read_csv_error_witness :
    robust_read_csv (some ',') ([] : List Nat) = Except.ok (⟨[], []⟩, 0) ∧
    (∃ df skipped, robust_read_csv (some ',') (asciiBytes "a,b\n1,2\n") =
      Except.ok (df, skipped)) :=
  ⟨(robust_read_csv_error_spec (some ',') []).1 (by decide),
   (robust_read_csv_error_spec (some ',') (asciiBytes "a,b\n1,2\n")).2.2
     ⟨"a,b", by decide, by decide⟩⟩

/-- Counterexample to C2 as stated: on `"a,b,c\n1,2\n"` the data row
`"1,2"` has 2 fields, fewer than the header's 3, yet it is not dropped —
it appears in the output table padded with a missing value (and is
counted in the skipped tally). -/
theorem robust_read_csv_short_row_kept_cex :
    robust_read_csv (some ',') (asciiBytes "a,b,c\n1,2\n") =
      Except.ok (⟨["a", "b", "c"], [[Cell.str "1", Cell.str "2", Cell.na]]⟩, 1) ∧
    (parseCsvLine ',' "1,2").length < (parseCsvLine ',' "a,b,c").length := by
  constructor
  · rfl
  · decide

/-- Claim C2 (amended): every row of the returned table has exactly the
table's declared (capped) column count — but not because short rows are
dropped: a data row with fewer fields than the header is kept, padded
with missing values to the capped width. -/
theorem robust_read_csv_rows_spec (sniff : Option Char) (raw : List Nat)
    (df : DataFrame) (skipped : Nat)
    (hok : robust_read_csv sniff raw = Except.ok (df, skipped)) :
    (∀ r ∈ df.rows, r.length = df.cols.length) ∧
    (∀ headerLine rest, pySplitlines (decodeBytes raw) = headerLine :: rest →
      headerLine ≠ "" →
      ∀ line ∈ rest, line ≠ "" →
        (parseCsvLine (sniff.getD ',') line).length ≤
            (parseCsvLine (sniff.getD ',') headerLine).length →
        ((parseCsvLine (sniff.getD ',') line).map fieldToCell ++
            List.replicate ((parseCsvLine (sniff.getD ',') headerLine).length -
              (parseCsvLine (sniff.getD ',') line).length) Cell.na).take
          (min 40 (parseCsvLine (sniff.getD ',') headerLine).length) ∈ df.rows) := by
  cases hl : pySplitlines (decodeBytes raw) with
  | nil =>
    simp only [robust_read_csv, hl] at hok
    simp only [Except.ok.injEq, Prod.mk.injEq] at hok
    obtain ⟨hdf, _⟩ := hok
    subst hdf
    constructor
    · intro r hr; simp at hr
    · intro headerLine rest heq
      simp at heq
  | cons hL rst =>
    simp only [robust_read_csv, hl] at hok
    cases hp : pandas_read_csv (sniff.getD ',')
        (min 40 (parseCsvLine (sniff.getD ',') hL).length) (hL :: rst) with
    | error e => rw [hp] at hok; simp [Except.map] at hok
    | ok df2 =>
      rw [hp] at hok
      simp only [Except.map, Except.ok.injEq, Prod.mk.injEq] at hok
      obtain ⟨hdf, _⟩ := hok
      subst hdf
      constructor
      · exact pandas_read_csv_rect _ _ _ _ hp
      · intro headerLine rest heq hne line hmem hlne hlen
        injection heq with h1 h2
        subst h1; subst h2
        rw [pandas_read_csv_cons _ _ _ _ hne] at hp
        simp only [Except.ok.injEq] at hp
        subst hp
        simp only []
        refine List.mem_map_of_mem _ (List.mem_filter.mpr ⟨?_, by simpa using hlen⟩)
        exact List.mem_map_of_mem _ (List.mem_filter.mpr ⟨hmem, by simpa using hlne⟩)

/-- Witness for the amended C2: on `"a,b,c\n1,2\n"` the padded short row
is a member of the returned table's rows. -/
theorem robust_read_csv_rows_witness :
    ((parseCsvLine ',' "1,2").map fieldToCell ++
        List.replicate ((parseCsvLine ',' "a,b,c").length -
          (parseCsvLine ',' "1,2").length) Cell.na).take
      (min 40 (parseCsvLine ',' "a,b,c").length) ∈
      (⟨["a", "b", "c"], [[Cell.str "1", Cell.str "2", Cell.na]]⟩ : DataFrame).rows :=
  (robust_read_csv_rows_spec (some ',') (asciiBytes "a,b,c\n1,2\n")
      ⟨["a", "b", "c"], [[Cell.str "1", Cell.str "2", Cell.na]]⟩ 1 (by rfl)).2
    "a,b,c" ["1,2"] (by decide) (by decide) "1,2" (by decide) (by decide) (by decide)

/-- Claim C3: a header declaring 5 columns with some body row of 3 fields
gives an `ok` table with 5 usable columns and a skipped count that is
exactly the number of body rows with fewer fields than the kept column
count — hence at least 1. -/
theorem robust_read_csv_five_cols_spec (sniff : Option Char) (raw : List Nat)
    (headerLine : String) (rest : List String)
    (hl : pySplitlines (decodeBytes raw) = headerLine :: rest)
    (hh : (parseCsvLine (sniff.getD ',') headerLine).length = 5)
    (hbad : ∃ line ∈ rest, (parseCsvLine (sniff.getD ',') line).length = 3) :
    ∃ df, robust_read_csv sniff raw =
        Except.ok (df,
          rest.countP (fun l => decide ((parseCsvLine (sniff.getD ',') l).length < 5))) ∧
      df.cols.length = 5 ∧
      1 ≤ rest.countP (fun l => decide ((parseCsvLine (sniff.getD ',') l).length < 5)) := by
  have hne : headerLine ≠ "" := by
    intro h0
    rw [h0] at hh
    simp [parseCsvLine] at hh
  have hc : 1 ≤ rest.countP
      (fun l => decide ((parseCsvLine (sniff.getD ',') l).length < 5)) := by
    rw [Nat.succ_le_iff, List.countP_pos_iff]
    obtain ⟨line, hmem, h3⟩ := hbad
    exact ⟨line, hmem, by simp [h3]⟩
  have h0 := robust_read_csv_cons sniff raw headerLine rest hl hne
  rw [hh] at h0
  have hmin : min 40 5 = 5 := by decide
  rw [hmin] at h0
  exact ⟨_, h0, by simp [List.length_take, hh], hc⟩

/-- Witness for C3: a concrete 5-column CSV with one 3-field row. -/
theorem robust_read_csv_five_cols_witness :
    ∃ df, robust_read_csv (some ',') (asciiBytes "a,b,c,d,e\n1,2,3\n4,5,6,7,8\n") =
        Except.ok (df, (["1,2,3", "4,5,6,7,8"] : List String).countP
          (fun l => decide ((parseCsvLine ((some ',').getD ',') l).length < 5))) ∧
      df.cols.length = 5 ∧
      1 ≤ (["1,2,3", "4,5,6,7,8"] : List String).countP
        (fun l => decide ((parseCsvLine ((some ',').getD ',') l).length < 5)) :=
  robust_read_csv_five_cols_spec (some ',') (asciiBytes "a,b,c,d,e\n1,2,3\n4,5,6,7,8\n")
    "a,b,c,d,e" ["1,2,3", "4,5,6,7,8"] (by decide) (by decide)
    ⟨"1,2,3", by decide, by decide⟩

/-- Claim C4: the returned table's columns are the first 40
header-declared columns by position, and the kept column count equals
`min 40 (header column count)` — in particular a 45-column header yields
exactly 40 columns. -/
theorem robust_read_csv_column_cap_spec (sniff : Option Char) (raw : List Nat)
    (headerLine : String) (rest : List String)
    (hl : pySplitlines (decodeBytes raw) = headerLine :: rest)
    (hne : headerLine ≠ "") :
    ∃ df skipped, robust_read_csv sniff raw = Except.ok (df, skipped) ∧
      df.cols = (parseCsvLine (sniff.getD ',') headerLine).take 40 ∧
      df.cols.length = min 40 (parseCsvLine (sniff.getD ',') headerLine).length ∧
      ((parseCsvLine (sniff.getD ',') headerLine).length = 45 → df.cols.length = 40) := by
  have h0 := robust_read_csv_cons sniff raw headerLine rest hl hne
  rw [take_min_length] at h0
  refine ⟨_, _, h0, rfl, ?_, ?_⟩
  · simp [List.length_take]
  · intro h45
    simp [List.length_take, h45]


/-- Witness for C4: a concrete 45-column header yields exactly the first
40 columns. -/
theorem robust_read_csv_column_cap_witness :
    ∃ df skipped,
      robust_read_csv (some ',') (asciiBytes "c1,c2,c3,c4,c5,c6,c7,c8,c9,c10,c11,c12,c13,c14,c15,c16,c17,c18,c19,c20,c21,c22,c23,c24,c25,c26,c27,c28,c29,c30,c31,c32,c33,c34,c35,c36,c37,c38,c39,c40,c41,c42,c43,c44,c45\n") = Except.ok (df, skipped) ∧
      df.cols = (parseCsvLine ',' "c1,c2,c3,c4,c5,c6,c7,c8,c9,c10,c11,c12,c13,c14,c15,c16,c17,c18,c19,c20,c21,c22,c23,c24,c25,c26,c27,c28,c29,c30,c31,c32,c33,c34,c35,c36,c37,c38,c39,c40,c41,c42,c43,c44,c45").take 40 ∧
      df.cols.length = min 40 (parseCsvLine ',' "c1,c2,c3,c4,c5,c6,c7,c8,c9,c10,c11,c12,c13,c14,c15,c16,c17,c18,c19,c20,c21,c22,c23,c24,c25,c26,c27,c28,c29,c30,c31,c32,c33,c34,c35,c36,c37,c38,c39,c40,c41,c42,c43,c44,c45").length ∧
      ((parseCsvLine ',' "c1,c2,c3,c4,c5,c6,c7,c8,c9,c10,c11,c12,c13,c14,c15,c16,c17,c18,c19,c20,c21,c22,c23,c24,c25,c26,c27,c28,c29,c30,c31,c32,c33,c34,c35,c36,c37,c38,c39,c40,c41,c42,c43,c44,c45").length = 45 → df.cols.length = 40) :=
  robust_read_csv_column_cap_spec (some ',') (asciiBytes "c1,c2,c3,c4,c5,c6,c7,c8,c9,c10,c11,c12,c13,c14,c15,c16,c17,c18,c19,c20,c21,c22,c23,c24,c25,c26,c27,c28,c29,c30,c31,c32,c33,c34,c35,c36,c37,c38,c39,c40,c41,c42,c43,c44,c45\n")
    "c1,c2,c3,c4,c5,c6,c7,c8,c9,c10,c11,c12,c13,c14,c15,c16,c17,c18,c19,c20,c21,c22,c23,c24,c25,c26,c27,c28,c29,c30,c31,c32,c33,c34,c35,c36,c37,c38,c39,c40,c41,c42,c43,c44,c45" [] (by decide) (by decide)

/-- Claim C5: for every filename whose base is two date tokens of the range
grammar `D[.-]D[.-]Y` (D one or two digits, Y two or four digits) joined by
exactly one underscore, followed by `.csv`, `extract_dates_from_filename`
returns exactly those two dates as (from, to), parsing each token
month-first, with a 2-digit year normalized to `2000 + Y` and a 4-digit
year used as is. -/
theorem extract_dates_range_spec (fn : String)
    (m1 d1 y1 m2 d2 y2 : List Char) (s1 s2 s3 s4 : Char)
    (hfn : fn.data = m1 ++ s1 :: (d1 ++ s2 :: (y1 ++ '_' :: (m2 ++ s3 :: (d2 ++ s4 :: y2))))
        ++ ['.', 'c', 's', 'v'])
    (hm1 : m1.length = 1 ∨ m1.length = 2) (hm1d : ∀ c ∈ m1, c.isDigit = true)
    (hd1 : d1.length = 1 ∨ d1.length = 2) (hd1d : ∀ c ∈ d1, c.isDigit = true)
    (hy1 : y1.length = 2 ∨ y1.length = 4) (hy1d : ∀ c ∈ y1, c.isDigit = true)
    (hm2 : m2.length = 1 ∨ m2.length = 2) (hm2d : ∀ c ∈ m2, c.isDigit = true)
    (hd2 : d2.length = 1 ∨ d2.length = 2) (hd2d : ∀ c ∈ d2, c.isDigit = true)
    (hy2 : y2.length = 2 ∨ y2.length = 4) (hy2d : ∀ c ∈ y2, c.isDigit = true)
    (hs1 : s1 = '.' ∨ s1 = '-') (hs2 : s2 = '.' ∨ s2 = '-')
    (hs3 : s3 = '.' ∨ s3 = '-') (hs4 : s4 = '.' ∨ s4 = '-')
    (hv1 : isValidDate (_norm_year y1) (digitsToNat m1) (digitsToNat d1) = true)
    (hv2 : isValidDate (_norm_year y2) (digitsToNat m2) (digitsToNat d2) = true) :
    extract_dates_from_filename fn =
      (some ⟨_norm_year y1, digitsToNat m1, digitsToNat d1⟩,
       some ⟨_norm_year y2, digitsToNat m2, digitsToNat d2⟩) ∧
    (y1.length = 2 → _norm_year y1 = 2000 + digitsToNat y1) ∧
    (y1.length = 4 → _norm_year y1 = digitsToNat y1) ∧
    (y2.length = 2 → _norm_year y2 = 2000 + digitsToNat y2) ∧
    (y2.length = 4 → _norm_year y2 = digitsToNat y2) := by
  refine ⟨?_, ?_, ?_, ?_, ?_⟩
  · unfold extract_dates_from_filename extract_dates_core
    rw [hfn, stripCsv_append_csv]
    rw [searchRange_of_match _ _ (matchRangeAt_canonical m1 d1 y1 m2 d2 y2 s1 s2 s3 s4
      hm1 hm1d hd1 hd1d hy1 hy1d hm2 hm2d hd2 hd2d hy2 hy2d hs1 hs2 hs3 hs4)]
    simp [_build_date, hv1, hv2]
  · intro h; simp [_norm_year, h]
  · intro h; simp [_norm_year, h]
  · intro h; simp [_norm_year, h]
  · intro h; simp [_norm_year, h]

/-- Witness for C5: the spec's own example,
`"10.27.25_11.2.25.csv"` yields `(2025-10-27, 2025-11-02)`. -/
theorem extract_dates_range_witness :
    extract_dates_from_filename "10.27.25_11.2.25.csv" =
      (some ⟨2025, 10, 27⟩, some ⟨2025, 11, 2⟩) := by
  have h := extract_dates_range_spec "10.27.25_11.2.25.csv"
    ['1', '0'] ['2', '7'] ['2', '5'] ['1', '1'] ['2'] ['2', '5'] '.' '.' '.' '.'
    (by decide) (by decide) (by decide) (by decide) (by decide) (by decide)
    (by decide) (by decide) (by decide) (by decide) (by decide) (by decide)
    (by decide) (by decide) (by decide) (by decide) (by decide) (by decide)
    (by decide)
  exact h.1.trans (by decide)

/-- Claim C6: the extractor never raises — a matched token with an invalid
month (13) resolves to `none` rather than raising, and a filename with no
digit at all (hence no date-like substring) yields `(none, none)`. -/
theorem extract_dates_never_raises_spec :
    (∀ m d y : List Char, digitsToNat m = 13 → _build_date false m d y = none) ∧
    (∀ s : String, (∀ c ∈ s.data, c.isDigit = false) →
      extract_dates_from_filename s = (none, none)) := by
  constructor
  · intro m d y hm
    simp [_build_date, isValidDate, hm]
  · intro s hs
    unfold extract_dates_from_filename extract_dates_core
    have h1 : searchRange (stripCsv s.data) = none :=
      searchRange_none _ (fun c hc => hs c (mem_stripCsv _ c hc))
    have h2 : searchSingle (stripCsv s.data) = none :=
      searchSingle_none _ (fun c hc => hs c (mem_stripCsv _ c hc))
    simp [h1, h2]

/-- Witness for C6: month 13 resolves to `none`, and a digit-free filename
yields `(none, none)`. -/
theorem extract_dates_never_raises_witness :
    (digitsToNat ['1', '3'] = 13 ∧
      _build_date false ['1', '3'] ['0', '5'] ['2', '5'] = none) ∧
    ((∀ c ∈ ("report.csv" : String).data, c.isDigit = false) ∧
      extract_dates_from_filename "report.csv" = (none, none)) :=
  ⟨⟨by decide,
    extract_dates_never_raises_spec.1 ['1', '3'] ['0', '5'] ['2', '5'] (by decide)⟩,
   ⟨by decide,
    extract_dates_never_raises_spec.2 "report.csv" (by decide)⟩⟩

/-- Claim C10: whenever the range pattern matches the (suffix-stripped)
filename, the result is built from that match alone — each token going
through `_build_date`, which may yield `none` — and the single-date
pattern is never consulted. -/
theorem extract_range_priority_spec (fn : String) (m1 d1 y1 m2 d2 y2 : List Char)
    (h : searchRange (stripCsv fn.data) = some (m1, d1, y1, m2, d2, y2)) :
    extract_dates_from_filename fn =
      (_build_date false m1 d1 y1, _build_date false m2 d2 y2) := by
  unfold extract_dates_from_filename extract_dates_core
  simp [h]

/-- Witness for C10: an invalid first token (month 13, day 40) with a
valid second token yields `(none, 2025-11-02)`. -/
theorem extract_range_priority_witness :
    extract_dates_from_filename "13.40.25_11.2.25.csv" = (none, some ⟨2025, 11, 2⟩) := by
  have h := extract_range_priority_spec "13.40.25_11.2.25.csv"
    ['1', '3'] ['4', '0'] ['2', '5'] ['1', '1'] ['2'] ['2', '5'] (by decide)
  exact h.trans (by decide)

/-! ### Claims C7, C8, C9 -/

lemma get?_zipWith {α β γ : Type} (f : α → β → γ) (as : List α) (bs : List β)
    (i : Nat) (a : α) (b : β) (ha : as.get? i = some a) (hb : bs.get? i = some b) :
    (List.zipWith f as bs).get? i = some (f a b) := by
  induction as generalizing bs i with
  | nil => simp at ha
  | cons x xs ih =>
    cases bs with
    | nil => simp at hb
    | cons y ys =>
      cases i with
      | zero =>
        simp only [List.get?] at ha hb
        injection ha with ha
        injection hb with hb
        subst ha; subst hb
        rfl
      | succ i =>
        simp only [List.get?] at ha hb
        exact ih ys i ha hb

/-- Claim C7: `coerce_named_date_columns` keeps the column list and the
row count (no row dropped), converts exactly the cells of columns named
in `_REQUIRED_DATE_COLS` (every other cell is returned unchanged), and an
unparseable value in a targeted column becomes the missing marker rather
than raising — for every parse function, i.e. for every behaviour of
`pandas.to_datetime`. -/
theorem coerce_named_date_columns_spec (parse : String → Option PyDate) (df : DataFrame) :
    (coerce_named_date_columns parse df).cols = df.cols ∧
    (coerce_named_date_columns parse df).rows.length = df.rows.length ∧
    (∀ i r, df.rows.get? i = some r →
      ∀ j name cell, df.cols.get? j = some name → r.get? j = some cell →
        ∃ r2, (coerce_named_date_columns parse df).rows.get? i = some r2 ∧
          r2.get? j = some (if name ∈ _REQUIRED_DATE_COLS then coerceCell parse cell
            else cell)) ∧
    (∀ s, parse s = none → coerceCell parse (Cell.str s) = Cell.na) := by
  refine ⟨rfl, by simp [coerce_named_date_columns], ?_, ?_⟩
  · intro i r hi j name cell hj hc
    refine ⟨List.zipWith (fun name cell => if name ∈ _REQUIRED_DATE_COLS then
      coerceCell parse cell else cell) df.cols r, ?_, ?_⟩
    · show (df.rows.map _).get? i = _
      rw [List.get?_map, hi]
      rfl
    · exact get?_zipWith _ df.cols r j name cell hj hc
  · intro s hs
    simp [coerceCell, hs]

/-- Witness for C7: with a parser that fails on everything, the `Begin
Date` cell becomes missing while the cell of the non-targeted column `X`
is unchanged. -/
theorem coerce_named_date_columns_witness :
    (∃ r2, (coerce_named_date_columns (fun _ => none)
        ⟨["X", "Begin Date"], [[Cell.str "keep", Cell.str "bad"]]⟩).rows.get? 0 = some r2 ∧
      r2.get? 1 = some Cell.na) ∧
    (∃ r2, (coerce_named_date_columns (fun _ => none)
        ⟨["X", "Begin Date"], [[Cell.str "keep", Cell.str "bad"]]⟩).rows.get? 0 = some r2 ∧
      r2.get? 0 = some (Cell.str "keep")) := by
  have h := coerce_named_date_columns_spec (fun _ => none)
    ⟨["X", "Begin Date"], [[Cell.str "keep", Cell.str "bad"]]⟩
  obtain ⟨r2, hr2, hc2⟩ := h.2.2.1 0 [Cell.str "keep", Cell.str "bad"] rfl
    1 "Begin Date" (Cell.str "bad") rfl rfl
  obtain ⟨r3, hr3, hc3⟩ := h.2.2.1 0 [Cell.str "keep", Cell.str "bad"] rfl
    0 "X" (Cell.str "keep") rfl rfl
  refine ⟨⟨r2, hr2, ?_⟩, ⟨r3, hr3, ?_⟩⟩
  · simpa [_REQUIRED_DATE_COLS, coerceCell] using hc2
  · simpa [_REQUIRED_DATE_COLS] using hc3

lemma insertIdx_four {α : Type} (v a b c d : α) (l : List α) :
    (a :: b :: c :: d :: l).insertIdx 4 v = a :: b :: c :: d :: v :: l := rfl

lemma insertDerivedCols_cols (yearVal : Int) (monthVal : String) (fromDt toDt : PyDate)
    (df : DataFrame) :
    (insertDerivedCols yearVal monthVal fromDt toDt df).cols =
      "Year" :: "Month" :: "From" :: "To" :: df.cols := rfl

lemma insertDerivedCols_rows (yearVal : Int) (monthVal : String) (fromDt toDt : PyDate)
    (df : DataFrame) :
    (insertDerivedCols yearVal monthVal fromDt toDt df).rows =
      df.rows.map (fun r => Cell.int yearVal :: Cell.str monthVal :: Cell.date fromDt ::
        Cell.date toDt :: r) := by
  simp only [insertDerivedCols, insertScalarCol, List.map_map]
  rfl

lemma detail_enrich_of_sco (yearVal : Int) (monthVal : String) (fromDt toDt : PyDate)
    (df : DataFrame) (hsco : "SCO" ∈ df.cols) :
    detail_enrich yearVal monthVal fromDt toDt df =
      ⟨"Year" :: "Month" :: "From" :: "To" :: "SCO2" :: df.cols,
       df.rows.map (fun r => Cell.int yearVal :: Cell.str monthVal :: Cell.date fromDt ::
         Cell.date toDt ::
         sco2Value (r.getD (df.cols.indexOf "SCO") Cell.na) :: r)⟩ := by
  have hmem : "SCO" ∈ (insertDerivedCols yearVal monthVal fromDt toDt df).cols := by
    rw [insertDerivedCols_cols]
    simp [hsco]
  have hidx : ("Year" :: "Month" :: "From" :: "To" :: df.cols).indexOf "SCO" =
      df.cols.indexOf "SCO" + 1 + 1 + 1 + 1 := by
    rw [List.indexOf_cons_ne _ (by decide), List.indexOf_cons_ne _ (by decide),
      List.indexOf_cons_ne _ (by decide), List.indexOf_cons_ne _ (by decide)]
  unfold detail_enrich
  rw [if_pos hmem]
  simp only [insertDerivedCols_cols, insertDerivedCols_rows, List.map_map,
    DataFrame.mk.injEq]
  refine ⟨rfl, ?_⟩
  refine congrArg (fun g => List.map g df.rows) (funext fun r => ?_)
  simp only [Function.comp, hidx, List.getD_cons_succ, insertIdx_four]

lemma detail_enrich_of_not_sco (yearVal : Int) (monthVal : String) (fromDt toDt : PyDate)
    (df : DataFrame) (hsco : "SCO" ∉ df.cols) :
    detail_enrich yearVal monthVal fromDt toDt df =
      insertDerivedCols yearVal monthVal fromDt toDt df := by
  unfold detail_enrich
  rw [if_neg]
  rw [insertDerivedCols_cols]
  simp [hsco]

/-- Counterexample to C8 as stated: with original columns `["X", "SCO"]`,
the enriched table is `[Year, Month, From, To, SCO2, X, SCO]` — `SCO2`
sits at fixed position 4, which is not immediately after the `SCO`
column. -/
theorem detail_enrich_sco2_position_cex :
    (detail_enrich 2025 "Oct" ⟨2025, 10, 27⟩ ⟨2025, 11, 2⟩
        ⟨["X", "SCO"], [[Cell.str "x1", Cell.str "CRUZ; ASHLIE"]]⟩).cols =
      ["Year", "Month", "From", "To", "SCO2", "X", "SCO"] ∧
    ["Year", "Month", "From", "To", "SCO2", "X", "SCO"].indexOf "SCO2" ≠
      ["Year", "Month", "From", "To", "SCO2", "X", "SCO"].indexOf "SCO" + 1 := by
  constructor
  · rfl
  · decide

/-- Claim C8 (amended): when an `SCO` column exists, `SCO2` is inserted
at the fixed position 4 — immediately after the four derived leading
columns and before every original column, not immediately after `SCO` —
with each value the normalized-lookup string (`""` when unmapped, never
missing); when no `SCO` column exists (and no `SCO2` was present), no
`SCO2` column is added. -/
theorem detail_enrich_sco2_spec (yearVal : Int) (monthVal : String) (fromDt toDt : PyDate)
    (df : DataFrame) :
    ("SCO" ∈ df.cols →
      (detail_enrich yearVal monthVal fromDt toDt df).cols =
        "Year" :: "Month" :: "From" :: "To" :: "SCO2" :: df.cols ∧
      (detail_enrich yearVal monthVal fromDt toDt df).rows =
        df.rows.map (fun r => Cell.int yearVal :: Cell.str monthVal :: Cell.date fromDt ::
          Cell.date toDt :: sco2Value (r.getD (df.cols.indexOf "SCO") Cell.na) :: r)) ∧
    (∀ c, sco2Value c = Cell.str ((SCO_MAP.lookup (_norm_key (pyStr c))).getD "")) ∧
    ("SCO" ∉ df.cols →
      (detail_enrich yearVal monthVal fromDt toDt df).cols =
        "Year" :: "Month" :: "From" :: "To" :: df.cols ∧
      ("SCO2" ∉ df.cols → "SCO2" ∉ (detail_enrich yearVal monthVal fromDt toDt df).cols)) := by
  refine ⟨fun hsco => ?_, fun c => rfl, fun hsco => ?_⟩
  · rw [detail_enrich_of_sco _ _ _ _ _ hsco]
    exact ⟨rfl, rfl⟩
  · rw [detail_enrich_of_not_sco _ _ _ _ _ hsco, insertDerivedCols_cols]
    refine ⟨rfl, fun h2 => ?_⟩
    simp [h2]

/-- Witness for C8 (amended): a concrete table with an `SCO` column gets
`SCO2` at position 4, and an unmapped operator value yields the empty
string, not a missing value. -/
theorem detail_enrich_sco2_witness :
    (detail_enrich 2024 "Nov" ⟨2024, 11, 1⟩ ⟨2024, 11, 7⟩
        ⟨["SCO", "Facility Code"],
         [[Cell.str " cruz; ashlie ", Cell.str "F1"],
          [Cell.str "NOBODY; SUCH", Cell.str "F2"]]⟩).cols =
      ["Year", "Month", "From", "To", "SCO2", "SCO", "Facility Code"] ∧
    sco2Value (Cell.str "NOBODY; SUCH") = Cell.str "" := by
  have h := detail_enrich_sco2_spec 2024 "Nov" ⟨2024, 11, 1⟩ ⟨2024, 11, 7⟩
    ⟨["SCO", "Facility Code"],
     [[Cell.str " cruz; ashlie ", Cell.str "F1"],
      [Cell.str "NOBODY; SUCH", Cell.str "F2"]]⟩
  exact ⟨(h.1 (by decide)).1, (h.2.1 (Cell.str "NOBODY; SUCH")).trans (by decide)⟩

/-- Counterexample to C9 as stated: with an output directory configured
and a failing write, `export_xlsx_bytes` propagates the error instead of
returning the in-memory blob — persistence failure does prevent the
return. -/
theorem export_xlsx_bytes_persist_cex :
    export_xlsx_bytes [1, 2, 3] (some "exports") (Except.ok ())
        (Except.error "PermissionError") = Except.error "PermissionError" ∧
    export_xlsx_bytes [1, 2, 3] (some "exports") (Except.ok ())
        (Except.error "PermissionError") ≠ Except.ok [1, 2, 3] := by
  constructor
  · rfl
  · exact fun h => Except.noConfusion h

/-- Claim C9 (amended): the blob is returned when no output directory is
configured, or when directory creation and the write both succeed (the
directory-creation call is issued before the write, with
`parents=True, exist_ok=True`); but a write failure propagates as the
function's outcome instead of the blob — persistence is not best-effort. -/
theorem export_xlsx_bytes_spec (blob : List Nat) (dir : String)
    (mkdirResult writeResult : Except String Unit) :
    (∀ m w : Except String Unit, export_xlsx_bytes blob none m w = Except.ok blob) ∧
    (mkdirResult = Except.ok () → writeResult = Except.ok () →
      export_xlsx_bytes blob (some dir) mkdirResult writeResult = Except.ok blob) ∧
    (∀ e, mkdirResult = Except.ok () → writeResult = Except.error e →
      export_xlsx_bytes blob (some dir) mkdirResult writeResult = Except.error e) ∧
    (∀ e, mkdirResult = Except.error e →
      export_xlsx_bytes blob (some dir) mkdirResult writeResult = Except.error e) := by
  refine ⟨fun m w => rfl, fun hm hw => ?_, fun e hm hw => ?_, fun e hm => ?_⟩
  · simp [export_xlsx_bytes, hm, hw]
  · simp [export_xlsx_bytes, hm, hw]
  · simp [export_xlsx_bytes, hm]

/-- Witness for C9 (amended): the blob is returned with no directory and
with a successful persist. -/
theorem export_xlsx_bytes_witness :
    export_xlsx_bytes [1, 2, 3] none (Except.ok ()) (Except.ok ()) = Except.ok [1, 2, 3] ∧
    export_xlsx_bytes [1, 2, 3] (some "exports") (Except.ok ()) (Except.ok ()) =
      Except.ok [1, 2, 3] :=
  ⟨(export_xlsx_bytes_spec [1, 2, 3] "exports" (Except.ok ()) (Except.ok ())).1
      (Except.ok ()) (Except.ok ()),
   (export_xlsx_bytes_spec [1, 2, 3] "exports" (Except.ok ()) (Except.ok ())).2.1 rfl rfl⟩

end EmReports
